import Mathlib

/-!
Shallow embedding of the rn-form onboarding repository:
`src/hooks/use-corporation-number-validation.ts` (the corporation-number
lookup client) and `src/components/onboarding/onboarding-form.tsx` (the
onboarding form controller).

The hook is a small state machine over `{idle, loading, valid, invalid}`
with a per-session cache and cancellable fetches.  Each `validate` call is
embedded as two phases mirroring the code around its single `await fetch`:
`validateStart` is the synchronous prefix (format guard, cache probe,
abort of the previous controller, transition to `loading`), and
`validateResolve` is the continuation that runs when the fetch settles.
AbortControllers are modelled as natural-number tokens; aborting a
controller while its fetch is in flight makes the awaited fetch reject
with an abort error, which the code catches and discards
(`controller.signal.aborted` check), so `validateResolve` branches first
on whether its token was aborted before the fetch settled.
-/

/-- `CorporationValidationResult` from the hook: `{valid: boolean, message?: string}`. -/
structure CorporationValidationResult where
  valid : Bool
  message : Option String
deriving DecidableEq, Repr

/-- The hook status enum `"idle" | "loading" | "valid" | "invalid"`. -/
inductive CorporationValidationStatus where
  | idle
  | loading
  | valid
  | invalid
deriving DecidableEq, Repr

/-- The mutable state owned by one hook instance: the two `useState` cells
(`status`, `errorMessage`), the `cacheRef` map, and the abort bookkeeping
(`abortRef.current` as `currentController`, plus the set of controllers whose
`abort()` has been called). -/
structure HookState where
  status : CorporationValidationStatus
  errorMessage : Option String
  cache : List (String × CorporationValidationResult)
  currentController : Option Nat
  abortedControllers : List Nat
deriving DecidableEq, Repr

/-- The hook state as first rendered: `idle`, no message, empty cache, no
controller. -/
def initialHookState : HookState :=
  { status := .idle
    errorMessage := none
    cache := []
    currentController := none
    abortedControllers := [] }

/-- Embeds `/^\d{9}$/.test(s)`: exactly nine ASCII digits ( `\d` is `[0-9]`
and, without the `m` flag, `^`/`$` anchor at the string ends). -/
def matchesNineDigits (s : String) : Bool :=
  s.length == 9 && s.data.all Char.isDigit

/-- Embeds `/^\+1\d{10}$/.test(s)`: a literal `+1` followed by exactly ten
ASCII digits. -/
def matchesCanadianPhone (s : String) : Bool :=
  match s.data with
  | '+' :: '1' :: rest => rest.length == 10 && rest.all Char.isDigit
  | _ => false

/-- `cacheRef.current.get n`: first binding for `n`, if any.  `Map.set` is
embedded as consing, and `get` finds the most recent binding, matching the
overwrite semantics of `Map`. -/
def cacheLookup (cache : List (String × CorporationValidationResult))
    (n : String) : Option CorporationValidationResult :=
  match cache.find? (fun p => p.1 == n) with
  | some p => some p.2
  | none => none

/-- What the synchronous prefix of `validate` produces: either the promise
resolves without suspending (`immediate`), or a fetch with a fresh
controller token is now in flight (`pending`). -/
inductive StartResult where
  | immediate (result : CorporationValidationResult)
  | pending (controllerId : Nat)
deriving DecidableEq, Repr

/-- Synchronous prefix of `validate(corporationNumber)` (hook lines 25-41):
format guard returning `{valid: false}` with no state change; cache probe
setting `status`/`errorMessage` from the cached result; otherwise abort the
previous controller, install `newController` as `abortRef.current`, set
`status` to `loading` and clear `errorMessage`, leaving a fetch pending. -/
def validateStart (corporationNumber : String) (newController : Nat)
    (s : HookState) : StartResult × HookState :=
  if !matchesNineDigits corporationNumber then
    (.immediate ⟨false, none⟩, s)
  else
    match cacheLookup s.cache corporationNumber with
    | some cached =>
        (.immediate cached,
          { s with
              status := if cached.valid then .valid else .invalid
              errorMessage := if cached.valid then none else cached.message })
    | none =>
        (.pending newController,
          { s with
              abortedControllers :=
                match s.currentController with
                | some c => c :: s.abortedControllers
                | none => s.abortedControllers
              currentController := some newController
              status := .loading
              errorMessage := none })

/-- The JSON body of a 2xx lookup response, reduced to what the code reads:
the truthiness of `payload?.valid` (`Boolean(payload?.valid)` and the
ternary test coincide) and `payload?.message` when it is a string.  An empty
object `{}` is `⟨false, none⟩`. -/
structure LookupPayload where
  valid : Bool
  message : Option String
deriving DecidableEq, Repr

/-- How the network settles a lookup fetch that was not aborted:
`httpError` is a response with `ok` false (non-2xx), `ok` is a 2xx response
with its JSON payload, `transportError` is a rejected fetch (network
failure). -/
inductive NetworkOutcome where
  | httpError
  | ok (payload : LookupPayload)
  | transportError
deriving DecidableEq, Repr

/-- Continuation of `validate` after its fetch settles (hook lines 43-81);
`corporationNumber` is the number the call closed over.  If `controllerId`
was aborted before the fetch settled, the `await` rejects with an abort
error and the catch returns `{valid: false}` with no state update.
Otherwise: non-2xx sets `invalid` with the fixed fallback message and does
not cache; a 2xx payload is coerced to a result, cached under
`corporationNumber`, and reflected in `status`/`errorMessage`; a transport
failure sets `invalid` with the fallback and does not cache. -/
def validateResolve (corporationNumber : String) (controllerId : Nat)
    (outcome : NetworkOutcome) (s : HookState) :
    CorporationValidationResult × HookState :=
  if s.abortedControllers.contains controllerId then
    (⟨false, none⟩, s)
  else
    match outcome with
    | .httpError =>
        (⟨false, some "Invalid corporation number"⟩,
          { s with status := .invalid
                   errorMessage := some "Invalid corporation number" })
    | .ok payload =>
        let result : CorporationValidationResult :=
          ⟨payload.valid,
            if payload.valid then none
            else some (payload.message.getD "Invalid corporation number")⟩
        (result,
          { s with
              cache := (corporationNumber, result) :: s.cache
              status := if result.valid then .valid else .invalid
              errorMessage := if result.valid then none else result.message })
    | .transportError =>
        (⟨false, some "Invalid corporation number"⟩,
          { s with status := .invalid
                   errorMessage := some "Invalid corporation number" })

/-- A network request issued by the component, as observed on the wire. -/
inductive NetworkRequest where
  | corporationLookup (number : String)
  | profileSubmit (firstName lastName phone corporationNumber : String)
deriving DecidableEq, Repr

/-- A whole `validate(corporationNumber)` call run to completion with no
interleaving: the synchronous prefix, then — when a fetch was issued — its
continuation under the given network outcome.  Also reports the lookup
requests put on the wire (`GET {endpoint}/{number}`). -/
def validateCall (corporationNumber : String) (newController : Nat)
    (outcome : NetworkOutcome) (s : HookState) :
    CorporationValidationResult × HookState × List NetworkRequest :=
  match validateStart corporationNumber newController s with
  | (.immediate result, s1) => (result, s1, [])
  | (.pending controllerId, s1) =>
      let (result, s2) := validateResolve corporationNumber controllerId outcome s1
      (result, s2, [.corporationLookup corporationNumber])

/-- The hook's `reset()`: abort any in-flight request, return to `idle`,
clear the message.  The cache is untouched. -/
def hookReset (s : HookState) : HookState :=
  { s with
      abortedControllers :=
        match s.currentController with
        | some c => c :: s.abortedControllers
        | none => s.abortedControllers
      status := .idle
      errorMessage := none }

/-- `newController` is a token the hook has never used: it is not the
current controller and has never been aborted.  Every `new AbortController()`
in the code is fresh in this sense. -/
def freshController (newController : Nat) (s : HookState) : Prop :=
  !s.abortedControllers.contains newController
    ∧ s.currentController ≠ some newController

/-- The four form fields of `onboardingSchema`. -/
inductive FormField where
  | firstName
  | lastName
  | phone
  | corporationNumber
deriving DecidableEq, Repr

/-- `OnboardingFormValues`: the four string fields owned by the form. -/
structure FormValues where
  firstName : String
  lastName : String
  phone : String
  corporationNumber : String
deriving DecidableEq, Repr

/-- The `defaultValues` of the form: every field is the empty string. -/
def defaultFormValues : FormValues :=
  { firstName := "", lastName := "", phone := "", corporationNumber := "" }

/-- The react-hook-form `errors` object, one optional message per field. -/
structure FieldErrors where
  firstName : Option String
  lastName : Option String
  phone : Option String
  corporationNumber : Option String
deriving DecidableEq, Repr

/-- No field errors: the `errors` object when every field passes. -/
def noFieldErrors : FieldErrors :=
  { firstName := none, lastName := none, phone := none
    corporationNumber := none }

/-- The zod rule of `onboardingSchema` for one field, as the message of the
first failing check (zod reports `min` before `max`). -/
def validateField (f : FormField) (v : FormValues) : Option String :=
  match f with
  | .firstName =>
      if v.firstName.length < 1 then some "First name is required"
      else if v.firstName.length > 50 then
        some "First name must be 50 characters or less"
      else none
  | .lastName =>
      if v.lastName.length < 1 then some "Last name is required"
      else if v.lastName.length > 50 then
        some "Last name must be 50 characters or less"
      else none
  | .phone =>
      if matchesCanadianPhone v.phone then none
      else some
        "Enter a valid Canadian phone number starting with +1 followed by 10 digits"
  | .corporationNumber =>
      if matchesNineDigits v.corporationNumber then none
      else some "Corporation number must be exactly 9 digits"

/-- Full synchronous validation of the schema, as the resolver runs it on
submit: the errors object holding each field's first failing message. -/
def runFieldValidation (v : FormValues) : FieldErrors :=
  { firstName := validateField .firstName v
    lastName := validateField .lastName v
    phone := validateField .phone v
    corporationNumber := validateField .corporationNumber v }

/-- Whether the resolver rejected: some field has an error. -/
def hasFieldErrors (e : FieldErrors) : Bool :=
  e.firstName.isSome || e.lastName.isSome || e.phone.isSome
    || e.corporationNumber.isSome

/-- The component state the claims observe: form values, the `errors`
object, the hook state, and the two server-outcome cells. -/
structure ControllerState where
  values : FormValues
  errors : FieldErrors
  hook : HookState
  serverError : Option String
  serverSuccess : Option String
deriving DecidableEq, Repr

/-- The controller as first rendered. -/
def initialControllerState : ControllerState :=
  { values := defaultFormValues
    errors := noFieldErrors
    hook := initialHookState
    serverError := none
    serverSuccess := none }

/-- `ensureCorporationValid` (form lines 80-98): `trigger` re-runs the
synchronous corporation rule, on failure setting the format error and
returning false; on success `validate` runs (cache hit or one lookup under
`outcome`); an invalid result sets the field error to
`result.message ?? "Invalid corporation number"`, a valid one clears it. -/
def ensureCorporationValid (newController : Nat) (outcome : NetworkOutcome)
    (st : ControllerState) : Bool × ControllerState × List NetworkRequest :=
  match validateField .corporationNumber st.values with
  | some formatMessage =>
      (false,
        { st with errors := { st.errors with corporationNumber := some formatMessage } },
        [])
  | none =>
      let triggered := { st with errors := { st.errors with corporationNumber := none } }
      let (result, hook1, requests) :=
        validateCall st.values.corporationNumber newController outcome st.hook
      if result.valid then
        (true,
          { triggered with hook := hook1
                           errors := { triggered.errors with corporationNumber := none } },
          requests)
      else
        (false,
          { triggered with
              hook := hook1
              errors := { triggered.errors with
                corporationNumber :=
                  some (result.message.getD "Invalid corporation number") } },
          requests)

/-- The corporation-field blur handler (form lines 100-102, 249-252): run
`ensureCorporationValid` and discard its boolean. -/
def handleCorporationBlur (newController : Nat) (outcome : NetworkOutcome)
    (st : ControllerState) : ControllerState × List NetworkRequest :=
  let (_, st1, requests) := ensureCorporationValid newController outcome st
  (st1, requests)

/-- How the final `POST {profile-endpoint}` settles: 2xx; non-2xx with the
optional `message` of its JSON body (`none` also covers an unparsable
body, via `.catch(() => null)`); or a thrown transport error. -/
inductive SubmitOutcome where
  | ok
  | httpError (message : Option String)
  | transportError
deriving DecidableEq, Repr

/-- The submit handler (form lines 104-137) run to completion with no
interleaving.  `handleSubmit` first runs the resolver: on failure it
records the field errors and never calls the inner callback (no network
traffic, `serverError`/`serverSuccess` untouched).  On success the inner
callback clears both server cells, runs `ensureCorporationValid` (aborting
on failure), then issues the `POST` with the submitted values: 2xx sets
the fixed success message, resets the form to its defaults and resets the
hook; non-2xx sets `payload?.message` or the generic fallback; a thrown
fetch sets the distinct transport fallback. -/
def onSubmit (newController : Nat) (lookupOutcome : NetworkOutcome)
    (submitOutcome : SubmitOutcome) (st : ControllerState) :
    ControllerState × List NetworkRequest :=
  let resolved := runFieldValidation st.values
  if hasFieldErrors resolved then
    ({ st with errors := resolved }, [])
  else
    let st1 := { st with errors := resolved
                         serverError := none
                         serverSuccess := none }
    let (corporationOk, st2, lookupRequests) :=
      ensureCorporationValid newController lookupOutcome st1
    if !corporationOk then
      (st2, lookupRequests)
    else
      let submitted : NetworkRequest :=
        .profileSubmit st.values.firstName st.values.lastName
          st.values.phone st.values.corporationNumber
      match submitOutcome with
      | .ok =>
          ({ st2 with
              serverSuccess := some "Details submitted successfully."
              values := defaultFormValues
              errors := noFieldErrors
              hook := hookReset st2.hook },
            lookupRequests ++ [submitted])
      | .httpError message =>
          ({ st2 with
              serverError :=
                some (message.getD
                  "Submission failed. Review your details and try again.") },
            lookupRequests ++ [submitted])
      | .transportError =>
          ({ st2 with
              serverError :=
                some "Unable to submit form right now. Please try again." },
            lookupRequests ++ [submitted])

/-- One rendered error element: its `testID` and its visible text. -/
structure RenderedError where
  testId : String
  text : String
deriving DecidableEq, Repr

/-- The error elements rendered for the corporation field (form lines
263-291).  `isCheckingCorporation` is `status === "loading"`.  The
`corporation-validation-error` element renders when not loading, the hook
status is `invalid` and the hook message is truthy (a non-empty string).
The plain `corporation-error` element renders when the field has an error
and `corporationErrorMatchesValidationMessage` is false, i.e. unless the
hook message is truthy and string-equal to the field error. -/
def corporationRenderedErrors (st : ControllerState) : List RenderedError :=
  let isChecking := st.hook.status == .loading
  let validationPart : List RenderedError :=
    match st.hook.errorMessage with
    | some m =>
        if !isChecking && st.hook.status == .invalid && m != "" then
          [⟨"corporation-validation-error", m⟩]
        else []
    | none => []
  let matchesValidationMessage : Bool :=
    match st.hook.errorMessage, st.errors.corporationNumber with
    | some m, some e => m != "" && e == m
    | _, _ => false
  let fieldPart : List RenderedError :=
    match st.errors.corporationNumber with
    | some e =>
        if !matchesValidationMessage then [⟨"corporation-error", e⟩] else []
    | none => []
  validationPart ++ fieldPart

/-- An operation a session may perform on the hook between two points of
interest: a complete `validate` call, or `reset()`. -/
inductive HookOp where
  | call (number : String) (newController : Nat) (outcome : NetworkOutcome)
  | resetHook
deriving DecidableEq, Repr

/-- Run one hook operation. -/
def runHookOp (op : HookOp) (s : HookState) : HookState :=
  match op with
  | .call number newController outcome =>
      (validateCall number newController outcome s).2.1
  | .resetHook => hookReset s

/-- Run a sequence of hook operations, oldest first. -/
def runHookOps (ops : List HookOp) (s : HookState) : HookState :=
  ops.foldl (fun s op => runHookOp op s) s

/-- Whether a request trace contains the final profile submission. -/
def reachedSubmission (requests : List NetworkRequest) : Bool :=
  requests.any fun r =>
    match r with
    | .profileSubmit _ _ _ _ => true
    | _ => false

/-- The hook state after a first lookup for `n1` was started with
controller `id1` and then, while that fetch is in flight, a second lookup
for `n2` was started with controller `id2`. -/
def twoLookupState (n1 n2 : String) (id1 id2 : Nat) (s0 : HookState) :
    HookState :=
  (validateStart n2 id2 (validateStart n1 id1 s0).2).2

/-- An aborted controller's continuation returns `{valid: false}` and
leaves the hook state untouched. -/
theorem validateResolve_aborted (n : String) (id : Nat) (o : NetworkOutcome)
    (s : HookState) (h : s.abortedControllers.contains id = true) :
    validateResolve n id o s = (⟨false, none⟩, s) := by
  have hm : id ∈ s.abortedControllers := by simpa using h
  simp [validateResolve, hm]

/-- Resolving a fetch never changes which controllers are aborted. -/
theorem validateResolve_preserves_aborted (n : String) (id : Nat)
    (o : NetworkOutcome) (s : HookState) :
    ((validateResolve n id o s).2).abortedControllers = s.abortedControllers := by
  by_cases h : id ∈ s.abortedControllers
  · simp [validateResolve, h]
  · cases o <;> simp [validateResolve, h]

/-- `ensureCorporationValid` never touches the form values. -/
theorem ensureCorporationValid_values (id : Nat) (o : NetworkOutcome)
    (st : ControllerState) :
    ((ensureCorporationValid id o st).2.1).values = st.values := by
  unfold ensureCorporationValid
  cases h : validateField .corporationNumber st.values
  · simp only [ensureCorporationValid, h]
    split <;> simp
  · simp [h]

/-- If the whole resolver passes, the corporation format rule passes. -/
theorem corporationFieldPasses (v : FormValues)
    (h : hasFieldErrors (runFieldValidation v) = false) :
    validateField .corporationNumber v = none := by
  cases hc : validateField .corporationNumber v with
  | none => rfl
  | some m => simp [hasFieldErrors, runFieldValidation, hc] at h

/-- C1: if a second `validate` starts before the first lookup's fetch
resolves, the first controller is aborted; the first request's eventual
resolution (whatever the network would have answered) returns
`{valid: false}` with no message and leaves the hook state untouched, and
after both settle — in either order — the state is exactly the one
produced by the second lookup's resolution alone, so `status` and
`errorMessage` reflect only the second lookup's result. -/
theorem cancelledLookupNeverUpdatesState (s0 : HookState) (n1 n2 : String)
    (id1 id2 : Nat) (o1 o2 : NetworkOutcome)
    (h1 : matchesNineDigits n1 = true)
    (h2 : cacheLookup s0.cache n1 = none)
    (h3 : matchesNineDigits n2 = true)
    (h4 : cacheLookup s0.cache n2 = none) :
    (twoLookupState n1 n2 id1 id2 s0).abortedControllers.contains id1 = true
      ∧ validateResolve n1 id1 o1 (twoLookupState n1 n2 id1 id2 s0)
          = (⟨false, none⟩, twoLookupState n1 n2 id1 id2 s0)
      ∧ (validateResolve n1 id1 o1
            (validateResolve n2 id2 o2 (twoLookupState n1 n2 id1 id2 s0)).2).2
          = (validateResolve n2 id2 o2 (twoLookupState n1 n2 id1 id2 s0)).2 := by
  have hc : (twoLookupState n1 n2 id1 id2 s0).abortedControllers.contains id1
      = true := by
    simp [twoLookupState, validateStart, h1, h2, h3, h4]
  refine ⟨hc, validateResolve_aborted n1 id1 o1 _ hc, ?_⟩
  have hc2 : ((validateResolve n2 id2 o2
      (twoLookupState n1 n2 id1 id2 s0)).2).abortedControllers.contains id1
      = true := by
    rw [validateResolve_preserves_aborted]
    exact hc
  rw [validateResolve_aborted n1 id1 o1 _ hc2]

/-- Witness for C1 at a concrete interleaving: lookups for `111111111`
then `222222222` from the initial state, the cancelled first fetch
answered by the network with a valid payload, the second with a non-2xx. -/
theorem cancelledLookupNeverUpdatesState_witness :
    matchesNineDigits "111111111" = true
      ∧ cacheLookup initialHookState.cache "111111111" = none
      ∧ matchesNineDigits "222222222" = true
      ∧ cacheLookup initialHookState.cache "222222222" = none
      ∧ ((twoLookupState "111111111" "222222222" 0 1
            initialHookState).abortedControllers.contains 0 = true
        ∧ validateResolve "111111111" 0 (.ok ⟨true, none⟩)
            (twoLookupState "111111111" "222222222" 0 1 initialHookState)
            = (⟨false, none⟩,
                twoLookupState "111111111" "222222222" 0 1 initialHookState)
        ∧ (validateResolve "111111111" 0 (.ok ⟨true, none⟩)
              (validateResolve "222222222" 1 .httpError
                (twoLookupState "111111111" "222222222" 0 1
                  initialHookState)).2).2
            = (validateResolve "222222222" 1 .httpError
                (twoLookupState "111111111" "222222222" 0 1
                  initialHookState)).2) :=
  ⟨by decide, by decide, by decide, by decide,
    cancelledLookupNeverUpdatesState initialHookState "111111111" "222222222"
      0 1 (.ok ⟨true, none⟩) .httpError (by decide) (by decide) (by decide)
      (by decide)⟩

/-- C2: a corporation number that is not exactly nine digits makes
`validate` return `{valid: false}` at once — the hook state is untouched
(in particular `status` never becomes `loading`) and no request reaches
the wire. -/
theorem formatMismatchShortCircuits (n : String) (id : Nat)
    (o : NetworkOutcome) (s : HookState)
    (h : matchesNineDigits n = false) :
    validateCall n id o s = (⟨false, none⟩, s, []) := by
  simp [validateCall, validateStart, h]

/-- Witness for C2 on the 5-digit input `12345` from the initial state. -/
theorem formatMismatchShortCircuits_witness :
    matchesNineDigits "12345" = false
      ∧ validateCall "12345" 0 .httpError initialHookState
          = (⟨false, none⟩, initialHookState, []) :=
  ⟨by decide,
    formatMismatchShortCircuits "12345" 0 .httpError initialHookState
      (by decide)⟩

/-- Starting a lookup with a fresh controller never marks that same
controller aborted (only the previous one is aborted). -/
theorem freshController_not_aborted_after_start (n : String) (id : Nat)
    (s : HookState) (h : freshController id s) :
    id ∉ ((validateStart n id s).2).abortedControllers := by
  obtain ⟨ha, hb⟩ := h
  have hmem : id ∉ s.abortedControllers := by simpa using ha
  unfold validateStart
  by_cases hm : matchesNineDigits n
  · cases hcl : cacheLookup s.cache n with
    | some cached => simpa [hm, hcl] using hmem
    | none =>
        cases hcur : s.currentController with
        | none => simpa [hm, hcl] using hmem
        | some c =>
            have hcne : c ≠ id := by
              rintro rfl
              exact hb hcur
            simp [hm, hcl]
            exact ⟨fun hcc => hcne hcc.symm, hmem⟩
  · simpa [hm] using hmem

/-- A binding just added for `n` is what the cache probe finds. -/
theorem cacheLookup_cons_self
    (c : List (String × CorporationValidationResult)) (n : String)
    (r : CorporationValidationResult) :
    cacheLookup ((n, r) :: c) n = some r := by
  simp [cacheLookup]

/-- Counterexample to C3 as stated: when the first lookup for the 9-digit
number `123456789` fails with a non-2xx response, nothing is cached, so a
second `validate` of the same number within the session contacts the
network again — two lookup requests in total, and the second call did not
resolve from cache. -/
theorem repeatedValidationTwoNetworkCalls :
    (validateCall "123456789" 0 .httpError initialHookState).2.2
        = [.corporationLookup "123456789"]
      ∧ (validateCall "123456789" 1 .httpError
            (validateCall "123456789" 0 .httpError initialHookState).2.1).2.2
        = [.corporationLookup "123456789"] := by
  constructor <;> rfl

/-- C3 (amended): when the first `validate` of a 9-digit number completed
with a 2xx JSON payload, the first call issued exactly one lookup request
and a second `validate` of the same number issues none — it returns the
cached result, equal to the first call's result, and sets `status` and
`errorMessage` from it. -/
theorem repeatedValidationServedFromCache (s : HookState) (n : String)
    (id1 id2 : Nat) (p : LookupPayload) (o2 : NetworkOutcome)
    (hn : matchesNineDigits n = true)
    (hcache : cacheLookup s.cache n = none)
    (hfresh : freshController id1 s) :
    (validateCall n id1 (.ok p) s).2.2 = [.corporationLookup n]
      ∧ (validateCall n id2 o2 (validateCall n id1 (.ok p) s).2.1).2.2 = []
      ∧ (validateCall n id2 o2 (validateCall n id1 (.ok p) s).2.1).1
          = (validateCall n id1 (.ok p) s).1
      ∧ ((validateCall n id2 o2 (validateCall n id1 (.ok p) s).2.1).2.1).status
          = (if (validateCall n id1 (.ok p) s).1.valid then .valid else .invalid)
      ∧ ((validateCall n id2 o2 (validateCall n id1 (.ok p) s).2.1).2.1).errorMessage
          = (if (validateCall n id1 (.ok p) s).1.valid then none
              else (validateCall n id1 (.ok p) s).1.message) := by
  have hnab := freshController_not_aborted_after_start n id1 s hfresh
  cases hcur : s.currentController with
  | none =>
      simp [validateStart, hn, hcache, hcur] at hnab
      simp [validateCall, validateStart, validateResolve, hn, hcache, hcur,
        hnab, cacheLookup_cons_self]
  | some c =>
      simp [validateStart, hn, hcache, hcur] at hnab
      simp [validateCall, validateStart, validateResolve, hn, hcache, hcur,
        hnab, cacheLookup_cons_self]

/-- Witness for the amended C3: `123456789` validated twice from the
initial state, the first lookup answered with a valid 2xx payload. -/
theorem repeatedValidationServedFromCache_witness :
    matchesNineDigits "123456789" = true
      ∧ cacheLookup initialHookState.cache "123456789" = none
      ∧ freshController 0 initialHookState
      ∧ ((validateCall "123456789" 0 (.ok ⟨true, none⟩)
            initialHookState).2.2 = [.corporationLookup "123456789"]
        ∧ (validateCall "123456789" 1 .httpError
              (validateCall "123456789" 0 (.ok ⟨true, none⟩)
                initialHookState).2.1).2.2 = []
        ∧ (validateCall "123456789" 1 .httpError
              (validateCall "123456789" 0 (.ok ⟨true, none⟩)
                initialHookState).2.1).1
            = (validateCall "123456789" 0 (.ok ⟨true, none⟩)
                initialHookState).1
        ∧ ((validateCall "123456789" 1 .httpError
              (validateCall "123456789" 0 (.ok ⟨true, none⟩)
                initialHookState).2.1).2.1).status
            = (if (validateCall "123456789" 0 (.ok ⟨true, none⟩)
                  initialHookState).1.valid then .valid else .invalid)
        ∧ ((validateCall "123456789" 1 .httpError
              (validateCall "123456789" 0 (.ok ⟨true, none⟩)
                initialHookState).2.1).2.1).errorMessage
            = (if (validateCall "123456789" 0 (.ok ⟨true, none⟩)
                  initialHookState).1.valid then none
                else (validateCall "123456789" 0 (.ok ⟨true, none⟩)
                  initialHookState).1.message)) :=
  ⟨by decide, by decide, ⟨by decide, by decide⟩,
    repeatedValidationServedFromCache initialHookState "123456789" 0 1
      ⟨true, none⟩ .httpError (by decide) (by decide) ⟨by decide, by decide⟩⟩

/-- C4: when the lookup fails — non-2xx response or transport error — the
cache is left unchanged, so a later `validate` of the same number goes to
the network again. -/
theorem lookupFailureNotCached (s : HookState) (n : String) (id1 id2 : Nat)
    (o1 o2 : NetworkOutcome)
    (hn : matchesNineDigits n = true)
    (hcache : cacheLookup s.cache n = none)
    (hfresh : freshController id1 s)
    (hfail : o1 = .httpError ∨ o1 = .transportError) :
    ((validateCall n id1 o1 s).2.1).cache = s.cache
      ∧ (validateCall n id2 o2 (validateCall n id1 o1 s).2.1).2.2
          = [.corporationLookup n] := by
  have hnab := freshController_not_aborted_after_start n id1 s hfresh
  rcases hfail with rfl | rfl <;> cases hcur : s.currentController <;>
  · simp [validateStart, hn, hcache, hcur] at hnab
    simp [validateCall, validateStart, validateResolve, hn, hcache, hcur, hnab]

/-- Witness for C4: `123456789` looked up from the initial state, the
network answering non-2xx; the retry issues a fresh lookup. -/
theorem lookupFailureNotCached_witness :
    matchesNineDigits "123456789" = true
      ∧ cacheLookup initialHookState.cache "123456789" = none
      ∧ freshController 0 initialHookState
      ∧ (((validateCall "123456789" 0 .httpError initialHookState).2.1).cache
            = initialHookState.cache
        ∧ (validateCall "123456789" 1 .httpError
              (validateCall "123456789" 0 .httpError
                initialHookState).2.1).2.2
            = [.corporationLookup "123456789"]) :=
  ⟨by decide, by decide, ⟨by decide, by decide⟩,
    lookupFailureNotCached initialHookState "123456789" 0 1 .httpError
      .httpError (by decide) (by decide) ⟨by decide, by decide⟩
      (Or.inl rfl)⟩

/-- A cache binding for a different number does not affect the probe. -/
theorem cacheLookup_cons_ne
    (c : List (String × CorporationValidationResult)) (n n1 : String)
    (r1 : CorporationValidationResult) (h : n1 ≠ n) :
    cacheLookup ((n1, r1) :: c) n = cacheLookup c n := by
  simp [cacheLookup, List.find?_cons, h]

/-- A number already cached stays cached with the same result across any
single hook operation (`validate` never overwrites an existing binding:
a cached number is served without touching the cache). -/
theorem runHookOp_cache_stable (op : HookOp) (s : HookState) (n : String)
    (r : CorporationValidationResult)
    (h : cacheLookup s.cache n = some r) :
    cacheLookup ((runHookOp op s).cache) n = some r := by
  cases op with
  | resetHook => simpa [runHookOp, hookReset] using h
  | call n1 id o =>
      by_cases hm : matchesNineDigits n1
      · cases hcl : cacheLookup s.cache n1 with
        | some cached =>
            simpa [runHookOp, validateCall, validateStart, hm, hcl] using h
        | none =>
            have hne : n1 ≠ n := by
              rintro rfl
              rw [h] at hcl
              exact Option.noConfusion hcl
            simp only [runHookOp, validateCall, validateStart, hm, hcl]
            simp only [Bool.not_true, Bool.false_eq_true, if_false]
            by_cases hab :
                id ∈ (match s.currentController with
                  | some c => c :: s.abortedControllers
                  | none => s.abortedControllers)
            · simpa [validateResolve, hab] using h
            · cases o with
              | httpError => simpa [validateResolve, hab] using h
              | transportError => simpa [validateResolve, hab] using h
              | ok payload =>
                  simpa [validateResolve, hab, cacheLookup_cons_ne _ _ _ _ hne]
                    using h
      · simpa [runHookOp, validateCall, validateStart, hm] using h

/-- A cached number survives any sequence of hook operations. -/
theorem runHookOps_cache_stable (ops : List HookOp) (s : HookState)
    (n : String) (r : CorporationValidationResult)
    (h : cacheLookup s.cache n = some r) :
    cacheLookup ((runHookOps ops s).cache) n = some r := by
  induction ops generalizing s with
  | nil => simpa [runHookOps] using h
  | cons op rest ih =>
      simpa [runHookOps] using ih _ (runHookOp_cache_stable op s n r h)

/-- A cached 9-digit number is served synchronously: no request, the
cached result returned. -/
theorem validateCall_cache_hit (n : String) (id : Nat) (o : NetworkOutcome)
    (s : HookState) (r : CorporationValidationResult)
    (hn : matchesNineDigits n = true)
    (h : cacheLookup s.cache n = some r) :
    (validateCall n id o s).2.2 = [] ∧ (validateCall n id o s).1 = r := by
  simp [validateCall, validateStart, hn, h]

/-- C10: a 2xx lookup response whose payload has no truthy `valid` field
yields `{valid: false, message: payload.message ?? "Invalid corporation
number"}`, sets `status` to `invalid` and `errorMessage` to that message,
and caches the invalid result, so that after any further hook operations
in the session a `validate` of the same number issues no network request
and returns the same invalid result. -/
theorem invalidPayloadCachedForSession (s : HookState) (n : String)
    (id1 : Nat) (p : LookupPayload) (ops : List HookOp) (id2 : Nat)
    (o2 : NetworkOutcome)
    (hn : matchesNineDigits n = true)
    (hcache : cacheLookup s.cache n = none)
    (hfresh : freshController id1 s)
    (hp : p.valid = false) :
    (validateCall n id1 (.ok p) s).1
        = ⟨false, some (p.message.getD "Invalid corporation number")⟩
      ∧ ((validateCall n id1 (.ok p) s).2.1).status = .invalid
      ∧ ((validateCall n id1 (.ok p) s).2.1).errorMessage
          = some (p.message.getD "Invalid corporation number")
      ∧ cacheLookup ((validateCall n id1 (.ok p) s).2.1).cache n
          = some ⟨false, some (p.message.getD "Invalid corporation number")⟩
      ∧ (validateCall n id2 o2
            (runHookOps ops (validateCall n id1 (.ok p) s).2.1)).2.2 = []
      ∧ (validateCall n id2 o2
            (runHookOps ops (validateCall n id1 (.ok p) s).2.1)).1
          = ⟨false, some (p.message.getD "Invalid corporation number")⟩ := by
  have hnab := freshController_not_aborted_after_start n id1 s hfresh
  have key : (validateCall n id1 (.ok p) s).1
        = ⟨false, some (p.message.getD "Invalid corporation number")⟩
      ∧ ((validateCall n id1 (.ok p) s).2.1).status = .invalid
      ∧ ((validateCall n id1 (.ok p) s).2.1).errorMessage
          = some (p.message.getD "Invalid corporation number")
      ∧ cacheLookup ((validateCall n id1 (.ok p) s).2.1).cache n
          = some ⟨false, some (p.message.getD "Invalid corporation number")⟩ := by
    cases hcur : s.currentController with
    | none =>
        simp [validateStart, hn, hcache, hcur] at hnab
        simp [validateCall, validateStart, validateResolve, hn, hcache, hcur,
          hnab, hp, cacheLookup_cons_self]
    | some c =>
        simp [validateStart, hn, hcache, hcur] at hnab
        simp [validateCall, validateStart, validateResolve, hn, hcache, hcur,
          hnab, hp, cacheLookup_cons_self]
  have hc2 := runHookOps_cache_stable ops ((validateCall n id1 (.ok p) s).2.1)
    n ⟨false, some (p.message.getD "Invalid corporation number")⟩ key.2.2.2
  have hhit := validateCall_cache_hit n id2 o2
    (runHookOps ops (validateCall n id1 (.ok p) s).2.1)
    ⟨false, some (p.message.getD "Invalid corporation number")⟩ hn hc2
  exact ⟨key.1, key.2.1, key.2.2.1, key.2.2.2, hhit.1, hhit.2⟩

/-- Witness for C10: `123456789` from the initial state answered 2xx with
an empty object, then an unrelated lookup and a `reset()`, then a second
`validate` of `123456789`. -/
theorem invalidPayloadCachedForSession_witness :
    matchesNineDigits "123456789" = true
      ∧ cacheLookup initialHookState.cache "123456789" = none
      ∧ freshController 0 initialHookState
      ∧ (⟨false, none⟩ : LookupPayload).valid = false
      ∧ ((validateCall "123456789" 0 (.ok ⟨false, none⟩) initialHookState).1
            = ⟨false, some ((none : Option String).getD
                "Invalid corporation number")⟩
        ∧ ((validateCall "123456789" 0 (.ok ⟨false, none⟩)
              initialHookState).2.1).status = .invalid
        ∧ ((validateCall "123456789" 0 (.ok ⟨false, none⟩)
              initialHookState).2.1).errorMessage
            = some ((none : Option String).getD "Invalid corporation number")
        ∧ cacheLookup ((validateCall "123456789" 0 (.ok ⟨false, none⟩)
              initialHookState).2.1).cache "123456789"
            = some ⟨false, some ((none : Option String).getD
                "Invalid corporation number")⟩
        ∧ (validateCall "123456789" 2 .httpError
              (runHookOps [.call "555555555" 1 .httpError, .resetHook]
                (validateCall "123456789" 0 (.ok ⟨false, none⟩)
                  initialHookState).2.1)).2.2 = []
        ∧ (validateCall "123456789" 2 .httpError
              (runHookOps [.call "555555555" 1 .httpError, .resetHook]
                (validateCall "123456789" 0 (.ok ⟨false, none⟩)
                  initialHookState).2.1)).1
            = ⟨false, some ((none : Option String).getD
                "Invalid corporation number")⟩) :=
  ⟨by decide, by decide, ⟨by decide, by decide⟩, by decide,
    invalidPayloadCachedForSession initialHookState "123456789" 0
      ⟨false, none⟩ [.call "555555555" 1 .httpError, .resetHook] 2 .httpError
      (by decide) (by decide) ⟨by decide, by decide⟩ (by decide)⟩

/-- A single `validate` call puts at most one lookup request on the wire,
and nothing else. -/
theorem validateCall_requests (n : String) (id : Nat) (o : NetworkOutcome)
    (s : HookState) :
    (validateCall n id o s).2.2 = []
      ∨ (validateCall n id o s).2.2 = [.corporationLookup n] := by
  rcases h : validateStart n id s with ⟨sr, s1⟩
  cases sr <;> simp [validateCall, h]

/-- `ensureCorporationValid` never touches the server-outcome cells. -/
theorem ensureCorporationValid_server (id : Nat) (o : NetworkOutcome)
    (st : ControllerState) :
    ((ensureCorporationValid id o st).2.1).serverError = st.serverError
      ∧ ((ensureCorporationValid id o st).2.1).serverSuccess
          = st.serverSuccess := by
  unfold ensureCorporationValid
  cases h : validateField .corporationNumber st.values
  · simp only [h]
    split <;> simp
  · simp [h]

/-- The corporation check never issues the profile submission. -/
theorem ensureCorporationValid_no_submit (id : Nat) (o : NetworkOutcome)
    (st : ControllerState) :
    reachedSubmission ((ensureCorporationValid id o st).2.2) = false := by
  unfold ensureCorporationValid
  cases h : validateField .corporationNumber st.values
  · simp only [h]
    rcases validateCall_requests st.values.corporationNumber id o st.hook
      with hr | hr <;> split <;> simp [hr, reachedSubmission]
  · simp [h, reachedSubmission]

/-- C5: blur with the nine-digit number `123456789` and a non-2xx lookup
response renders exactly one error element for the corporation field — the
`corporation-validation-error` element — and the plain `corporation-error`
element is suppressed by the message-equality deduplication.  The rendered
text, however, is the hook fallback `"Invalid corporation number"`, not
the `"Unable to validate corporation number right now."` that the spec
scenario and the repository's own test
(`shows API fallback validation error only once when the request fails`)
expect: the code contradicts its test on the message text. -/
theorem nonOkLookupRendersFallbackOnce :
    corporationRenderedErrors
        (handleCorporationBlur 0 .httpError
          { initialControllerState with
              values := { defaultFormValues with
                corporationNumber := "123456789" } }).1
      = [⟨"corporation-validation-error", "Invalid corporation number"⟩] := by
  rfl

/-- Counterexample to C6 as stated: a submit attempt on fully
format-valid values whose corporation lookup answers 2xx with
`{valid: false, message: "Invalid corporation number"}` completes with
`serverError` and `serverSuccess` both null — the attempt was aborted
before the final submission, so neither cell is ever set. -/
theorem serverOutcomeBothNullCounterexample :
    (((onSubmit 0 (.ok ⟨false, some "Invalid corporation number"⟩) .ok
        { initialControllerState with
            values := { firstName := "Hello", lastName := "World",
                        phone := "+13062776103",
                        corporationNumber := "123456789" } }).1).serverError
        = none)
      ∧ (((onSubmit 0 (.ok ⟨false, some "Invalid corporation number"⟩) .ok
          { initialControllerState with
              values := { firstName := "Hello", lastName := "World",
                          phone := "+13062776103",
                          corporationNumber := "123456789" } }).1).serverSuccess
          = none) := by
  constructor <;> rfl

/-- C6 (amended): on a submit attempt that passes synchronous field
validation, both server cells are cleared at the start; if the attempt
reaches the final network submission exactly one of `serverError` and
`serverSuccess` is non-null afterwards, and if the corporation check
aborts the attempt both remain null. -/
theorem serverOutcomeExclusiveWhenSubmitted (st : ControllerState) (id : Nat)
    (lo : NetworkOutcome) (so : SubmitOutcome)
    (h : hasFieldErrors (runFieldValidation st.values) = false) :
    (reachedSubmission (onSubmit id lo so st).2 = true →
        (((onSubmit id lo so st).1).serverError.isSome = true
            ∧ ((onSubmit id lo so st).1).serverSuccess = none)
          ∨ (((onSubmit id lo so st).1).serverError = none
            ∧ ((onSubmit id lo so st).1).serverSuccess.isSome = true))
      ∧ (reachedSubmission (onSubmit id lo so st).2 = false →
          ((onSubmit id lo so st).1).serverError = none
            ∧ ((onSubmit id lo so st).1).serverSuccess = none) := by
  unfold onSubmit
  simp only [h, Bool.false_eq_true, if_false]
  have hserver := ensureCorporationValid_server id lo
    { st with errors := runFieldValidation st.values,
              serverError := none, serverSuccess := none }
  have hnosub := ensureCorporationValid_no_submit id lo
    { st with errors := runFieldValidation st.values,
              serverError := none, serverSuccess := none }
  rcases hE : ensureCorporationValid id lo
      { st with errors := runFieldValidation st.values,
                serverError := none, serverSuccess := none }
    with ⟨ok, st2, reqs⟩
  rw [hE] at hserver hnosub
  simp only at hserver hnosub
  simp only [hE]
  cases ok with
  | false =>
      simp only [Bool.not_false, if_true]
      constructor
      · intro hr
        rw [hnosub] at hr
        exact absurd hr (by simp)
      · intro _
        exact ⟨hserver.1, hserver.2⟩
  | true =>
      simp only [Bool.not_true, Bool.false_eq_true, if_false]
      cases so <;>
        simp [reachedSubmission, List.any_append, hserver.1, hserver.2]

/-- Witness for the amended C6: fully valid values, a valid lookup, and a
non-2xx submission response — the attempt reaches the submission and ends
with exactly `serverError` set. -/
theorem serverOutcomeExclusiveWhenSubmitted_witness :
    hasFieldErrors (runFieldValidation
        { firstName := "Hello", lastName := "World",
          phone := "+13062776103", corporationNumber := "826417395" })
        = false
      ∧ ((((onSubmit 0 (.ok ⟨true, none⟩) (.httpError none)
            { initialControllerState with
                values := { firstName := "Hello", lastName := "World",
                            phone := "+13062776103",
                            corporationNumber := "826417395" } }).1).serverError.isSome
              = true
          ∧ ((onSubmit 0 (.ok ⟨true, none⟩) (.httpError none)
              { initialControllerState with
                  values := { firstName := "Hello", lastName := "World",
                              phone := "+13062776103",
                              corporationNumber := "826417395" } }).1).serverSuccess
              = none)
        ∨ (((onSubmit 0 (.ok ⟨true, none⟩) (.httpError none)
              { initialControllerState with
                  values := { firstName := "Hello", lastName := "World",
                              phone := "+13062776103",
                              corporationNumber := "826417395" } }).1).serverError
              = none
          ∧ ((onSubmit 0 (.ok ⟨true, none⟩) (.httpError none)
              { initialControllerState with
                  values := { firstName := "Hello", lastName := "World",
                              phone := "+13062776103",
                              corporationNumber := "826417395" } }).1).serverSuccess.isSome
              = true)) := by
  have hthm := serverOutcomeExclusiveWhenSubmitted
    { initialControllerState with
        values := { firstName := "Hello", lastName := "World",
                    phone := "+13062776103",
                    corporationNumber := "826417395" } }
    0 (.ok ⟨true, none⟩) (.httpError none) (by decide)
  exact ⟨by decide, hthm.1 (by decide)⟩

/-- C7: when every field passes synchronous validation and the
corporation lookup returns valid, submit issues the `POST` to the profile
endpoint with the body built from the form values; a 2xx response clears
the values and surfaces the fixed success message; a non-2xx response
surfaces the server-provided message when present and a generic fallback
otherwise; a transport exception surfaces the distinct generic fallback.
Failures leave the values as they were. -/
theorem validSubmissionOutcomes (st : ControllerState) (id : Nat)
    (lo : NetworkOutcome) (so : SubmitOutcome)
    (h : hasFieldErrors (runFieldValidation st.values) = false)
    (hlookup :
      (validateCall st.values.corporationNumber id lo st.hook).1.valid
        = true) :
    NetworkRequest.profileSubmit st.values.firstName st.values.lastName
        st.values.phone st.values.corporationNumber ∈ (onSubmit id lo so st).2
      ∧ (so = .ok →
          ((onSubmit id lo so st).1).serverSuccess
              = some "Details submitted successfully."
            ∧ ((onSubmit id lo so st).1).serverError = none
            ∧ ((onSubmit id lo so st).1).values = defaultFormValues)
      ∧ (∀ msg, so = .httpError msg →
          ((onSubmit id lo so st).1).serverError
              = some (msg.getD
                  "Submission failed. Review your details and try again.")
            ∧ ((onSubmit id lo so st).1).serverSuccess = none
            ∧ ((onSubmit id lo so st).1).values = st.values)
      ∧ (so = .transportError →
          ((onSubmit id lo so st).1).serverError
              = some "Unable to submit form right now. Please try again."
            ∧ ((onSubmit id lo so st).1).serverSuccess = none
            ∧ ((onSubmit id lo so st).1).values = st.values) := by
  have hcorp := corporationFieldPasses st.values h
  have hval := ensureCorporationValid_values id lo
    { st with errors := runFieldValidation st.values,
              serverError := none, serverSuccess := none }
  have hserver := ensureCorporationValid_server id lo
    { st with errors := runFieldValidation st.values,
              serverError := none, serverSuccess := none }
  unfold onSubmit
  simp only [h, Bool.false_eq_true, if_false]
  rcases hV : validateCall st.values.corporationNumber id lo st.hook
    with ⟨res, hk, rq⟩
  rw [hV] at hlookup
  simp only at hlookup
  unfold ensureCorporationValid at hval hserver ⊢
  simp only [hcorp] at hval hserver ⊢
  rw [hV] at hval hserver ⊢
  simp only [hlookup, if_true] at hval hserver ⊢
  cases so with
  | ok => simp [hval, hserver.1, hserver.2]
  | httpError msg => simp [hval, hserver.1, hserver.2]
  | transportError => simp [hval, hserver.1, hserver.2]

/-- Witness for C7: the spec's happy-path scenario — `Hello`, `World`,
`+13062776103`, `826417395`, lookup `{valid: true}`, 2xx submission. -/
theorem validSubmissionOutcomes_witness :
    hasFieldErrors (runFieldValidation
        { firstName := "Hello", lastName := "World",
          phone := "+13062776103", corporationNumber := "826417395" })
        = false
      ∧ (validateCall "826417395" 0 (.ok ⟨true, none⟩)
          initialHookState).1.valid = true
      ∧ NetworkRequest.profileSubmit "Hello" "World" "+13062776103"
          "826417395" ∈ (onSubmit 0 (.ok ⟨true, none⟩) .ok
            { initialControllerState with
                values := { firstName := "Hello", lastName := "World",
                            phone := "+13062776103",
                            corporationNumber := "826417395" } }).2
      ∧ ((onSubmit 0 (.ok ⟨true, none⟩) .ok
            { initialControllerState with
                values := { firstName := "Hello", lastName := "World",
                            phone := "+13062776103",
                            corporationNumber := "826417395" } }).1).serverSuccess
          = some "Details submitted successfully."
      ∧ ((onSubmit 0 (.ok ⟨true, none⟩) .ok
            { initialControllerState with
                values := { firstName := "Hello", lastName := "World",
                            phone := "+13062776103",
                            corporationNumber := "826417395" } }).1).serverError
          = none
      ∧ ((onSubmit 0 (.ok ⟨true, none⟩) .ok
            { initialControllerState with
                values := { firstName := "Hello", lastName := "World",
                            phone := "+13062776103",
                            corporationNumber := "826417395" } }).1).values
          = defaultFormValues := by
  have hthm := validSubmissionOutcomes
    { initialControllerState with
        values := { firstName := "Hello", lastName := "World",
                    phone := "+13062776103",
                    corporationNumber := "826417395" } }
    0 (.ok ⟨true, none⟩) .ok (by decide) (by decide)
  exact ⟨by decide, by decide, hthm.1, (hthm.2.1 rfl).1, (hthm.2.1 rfl).2.1,
    (hthm.2.1 rfl).2.2⟩

/-- C8: submitting the form with every field equal to the empty string
produces exactly the four field errors — required first name, required
last name, the phone pattern message, and the corporation-number format
message — and issues no network request at all: the submit handler aborts
before the lookup and the submission. -/
theorem emptyFormSubmitFourErrorsNoNetwork (id : Nat) (lo : NetworkOutcome)
    (so : SubmitOutcome) :
    onSubmit id lo so initialControllerState
      = ({ initialControllerState with
            errors :=
              { firstName := some "First name is required"
                lastName := some "Last name is required"
                phone := some
                  "Enter a valid Canadian phone number starting with +1 followed by 10 digits"
                corporationNumber := some
                  "Corporation number must be exactly 9 digits" } },
          []) := by
  rfl

/-- C9: a submit attempt whose final submission fails — with a non-2xx
response (any server message) or a transport exception — leaves the
entered form values untouched. -/
theorem failedSubmissionKeepsValues (st : ControllerState) (id : Nat)
    (lo : NetworkOutcome) (m : Option String) :
    ((onSubmit id lo (.httpError m) st).1).values = st.values
      ∧ ((onSubmit id lo .transportError st).1).values = st.values := by
  have hval : ∀ st1 : ControllerState,
      ((ensureCorporationValid id lo st1).2.1).values = st1.values :=
    fun st1 => ensureCorporationValid_values id lo st1
  constructor <;>
  · unfold onSubmit
    by_cases h : hasFieldErrors (runFieldValidation st.values)
    · simp [h]
    · simp only [h, Bool.false_eq_true, if_false]
      rcases hE : ensureCorporationValid id lo
          { st with errors := runFieldValidation st.values,
                    serverError := none, serverSuccess := none }
        with ⟨ok, st2, reqs⟩
      have hv2 : st2.values = st.values := by
        have := hval { st with errors := runFieldValidation st.values,
                               serverError := none, serverSuccess := none }
        rw [hE] at this
        exact this
      simp only [hE]
      cases ok <;> simp [hv2]
